import Mathlib

/-!
Verification of the Rigol instrument scripts (RigolInstruments.py, GenerateArb.py).

The Python code is shallowly embedded: float arithmetic becomes exact rational
arithmetic over `ℚ`, numpy arrays become `List ℚ` / `List ℕ`, instrument replies
become explicit parameters, and fallible code returns `PyResult`.
A Python function that can terminate with an uncaught exception (for example an
`UnboundLocalError` when a local variable was never assigned on the taken branch)
is modelled as returning `PyResult.error` carrying that exception.
Transport and console side effects are modelled as explicit event lists.
-/

set_option autoImplicit false

/-- Errors a modelled routine can surface to its caller.  `unboundLocal v` models
the Python `UnboundLocalError` raised when the local variable `v` is read without
having been assigned on the executed path.  `unsupportedConfiguration` models the
designed error named by the specification taxonomy (section 7); no code in the
repository raises it, it exists here so that statements can compare the actual
failure against the specified one. -/
inductive PyError where
  | unboundLocal (name : String)
  | unsupportedConfiguration
  deriving DecidableEq, Repr

/-- Result of a Python call: a value, or an uncaught exception. -/
inductive PyResult (A : Type) where
  | ok (val : A)
  | error (err : PyError)
  deriving DecidableEq, Repr

/-! ## GenerateArb.py: the 14-bit quantizer -/

/-- Source: GenerateArb.py line 17, `bitrange = 16383`. -/
def bitrange : ℕ := 16383

/-- Rounding to the nearest integer with ties to even, the behaviour of
`np.round` used throughout the source.  Away from ties it agrees with
Mathlib `round` (nearest, ties up). -/
def npRound (x : ℚ) : ℤ :=
  if x - ⌊x⌋ = 1 / 2 then (if 2 ∣ ⌊x⌋ then ⌊x⌋ else ⌊x⌋ + 1) else round x

/-- Source: GenerateArb.py lines 27-31, `V2b(V) = np.round(bitrange*V)`:
convert a voltage in the range [0,1] into a 14 bit number. -/
def V2b (V : ℚ) : ℤ := npRound (bitrange * V)

/-- Source: GenerateArb.py lines 33-37, `b2V(b) = b/bitrange`:
convert a 14 bit number back into the range [0,1]. -/
def b2V (b : ℚ) : ℚ := b / bitrange

/-! ## RigolDS1102: per-sample voltage rescale -/

/-- Source: RigolInstruments.py line 370 (RigolDS1102.rescaleToVolts), the
per-sample affine decode
`( (data * -1 + 255) - 130.0 - Voffs/Vscale*25) / 25 * Vscale`. -/
def rescaleSample (data Voffs Vscale : ℚ) : ℚ :=
  ((data * -1 + 255) - 130 - Voffs / Vscale * 25) / 25 * Vscale

/-- Source: RigolInstruments.py lines 366-371, `rescaleToVolts` maps the decode
over the raw byte array read from a channel. -/
def rescaleToVolts (data : List ℕ) (Voffs Vscale : ℚ) : List ℚ :=
  data.map (fun (b : ℕ) => rescaleSample (b : ℚ) Voffs Vscale)

/-! ## RigolDS1102.getNPoints -/

/-- Source: RigolInstruments.py lines 219-237 (RigolDS1102.getNPoints).  The
`if`/`elif` chain on `[acqMode, memDepth, nChannels]`; when no branch matches,
the Python local `nPoints` is never assigned and the trailing
`self.nPoints = nPoints` raises `UnboundLocalError`. -/
def getNPoints (mode depth : String) (nChan : ℤ) : PyResult ℕ :=
  if mode = "NORMAL" then .ok (600 + 10)
  else if depth = "NORMAL" ∧ nChan = 2 then .ok (8192 + 10)
  else if depth = "NORMAL" ∧ nChan = 1 then .ok (16384 + 10)
  else if depth = "LONG" ∧ nChan = 2 then .ok (524288 + 10)
  else if depth = "LONG" ∧ nChan = 1 then .ok (1048576 + 10)
  else .error (.unboundLocal "nPoints")

/-! ## RigolDS1102.getNDevs -/

/-- First-match association-list lookup, the model of a Python dict whose keys
are the float literals of the source (embedded as exact rationals). -/
def alookup (k : ℚ) : List (ℚ × ℚ) → Option ℚ
  | [] => none
  | p :: ps => if k = p.1 then some p.2 else alookup k ps

/-- Source: RigolInstruments.py lines 446-448, the `devDict` for RAW
acquisition, NORMAL memory depth, 1 channel.  Keys are the time/div float
literals of the source in seconds (50e-3 is 1/20 and so on). -/
def rawNormal1Dict : List (ℚ × ℚ) :=
  [(1/20, 12), (1/50, 82), (1/100, 66), (1/200, 66),
   (1/500, 82), (1/1000, 66), (1/2000, 66), (1/5000, 82), (1/10000, 66),
   (1/20000, 66), (1/50000, 82), (1/100000, 66), (1/200000, 66), (1/500000, 82)]

/-- Source: RigolInstruments.py lines 452-454, the `devDict` for RAW
acquisition, NORMAL memory depth, 2 channels. -/
def rawNormal2Dict : List (ℚ × ℚ) :=
  [(1/20, 12), (1/50, 41), (1/100, 33), (1/200, 33),
   (1/500, 41), (1/1000, 33), (1/2000, 33), (1/5000, 41), (1/10000, 33),
   (1/20000, 33), (1/50000, 41), (1/100000, 33), (1/200000, 33), (1/500000, 41)]

/-- Source: RigolInstruments.py lines 464-467, the `devDict` for RAW
acquisition, LONG memory depth, 1 channel (marked NOT CALIBRATED YET in the
source).  100e-6 maps to 52.5, embedded as 105/2. -/
def rawLong1Dict : List (ℚ × ℚ) :=
  [(1/2, 12), (1/5, 12), (1/10, 12), (1/20, 12), (1/50, 26),
   (1/100, 26), (1/200, 21), (1/500, 26), (1/1000, 26),
   (1/2000, 21), (1/5000, 26), (1/10000, 105/2), (1/20000, 105),
   (1/50000, 262), (1/100000, 524), (1/200000, 1048)]

/-- Source: RigolInstruments.py lines 472-475, the `devDict` for RAW
acquisition, LONG memory depth, 2 channels. -/
def rawLong2Dict : List (ℚ × ℚ) :=
  [(1/2, 12), (1/5, 12), (1/10, 12), (1/20, 12), (1/50, 26),
   (1/100, 26), (1/200, 21), (1/500, 26), (1/1000, 26),
   (1/2000, 21), (1/5000, 26), (1/10000, 105/2), (1/20000, 105),
   (1/50000, 262), (1/100000, 524), (1/200000, 1048)]

/-- Source: RigolInstruments.py lines 477-482.  `try: nDev = devDict[tDev]
except KeyError: print(...)` followed by `return nDev`: on a key miss the
`except` branch only prints, so `nDev` is still unbound at the `return` and an
`UnboundLocalError` propagates to the caller. -/
def lookupNDev (dict : List (ℚ × ℚ)) (tDev : ℚ) : PyResult ℚ :=
  match alookup tDev dict with
  | some v => .ok v
  | none => .error (.unboundLocal "nDev")

/-- Source: RigolInstruments.py lines 423-482 (RigolDS1102.getNDevs), the
branch structure on acquisition mode, memory depth and channel count.  When the
mode is not NORMAL and `nChan` is neither 1 nor 2, the local `devDict` is never
assigned, so `devDict[tDev]` raises `UnboundLocalError` (which the
`except KeyError` does not catch). -/
def getNDevs (tDev : ℚ) (mode depth : String) (nChan : ℤ) : PyResult ℚ :=
  if mode = "NORMAL" then .ok 12
  else if depth = "NORMAL" then
    if nChan = 1 then lookupNDev rawNormal1Dict tDev
    else if nChan = 2 then lookupNDev rawNormal2Dict tDev
    else .error (.unboundLocal "devDict")
  else
    if nChan = 1 then lookupNDev rawLong1Dict tDev
    else if nChan = 2 then lookupNDev rawLong2Dict tDev
    else .error (.unboundLocal "devDict")

/-! ## RigolDS1102.getNumChannels

Source: RigolInstruments.py lines 239-253.  Both queries issue the command
`":CHAN1:DISP?"` (lines 241 and 243); the instrument is modelled as a reply
function from command strings to reply strings. -/

/-- Source: RigolInstruments.py lines 239-253 (RigolDS1102.getNumChannels). -/
def getNumChannels (reply : String → String) : ℤ :=
  let ch1 := reply ":CHAN1:DISP?"
  let ch2 := reply ":CHAN1:DISP?"
  if ch1 = "ON" ∧ ch2 = "ON" then 2
  else if ch1 = "OFF" ∧ ch2 = "OFF" then 0
  else 1

/-! ## The waveform read pipeline with its transport trace

`IOEvent` records the externally visible actions of the pipeline: a command
written to the transport, a transport read of a given byte count, and console
prints.  A query (RigolDS1102.query, lines 142-145) is a write followed by a
read of the default 100 bytes. -/

/-- One externally visible action of the scope pipeline. -/
inductive IOEvent where
  | write (cmd : String)
  | read (n : ℕ)
  | print (msg : String)
  | printNum (q : ℚ)
  deriving DecidableEq, Repr

/-- A query is a write of the command followed by a read of the default
100 bytes (RigolDS1102.query, lines 142-145). -/
def queryEvs (cmd : String) : List IOEvent := [.write cmd, .read 100]

/-- Queries issued by getNPoints: getAcqMode (line 214) then getMemDepth
(line 198). -/
def nPointsQueryEvs : List IOEvent :=
  queryEvs ":WAV:POINTS:MODE?" ++ queryEvs ":ACQ:MEMDEPTH?"

/-- Queries issued by getNDevs: getTScale (line 180), getAcqMode, getMemDepth
(lines 431-434). -/
def nDevsQueryEvs : List IOEvent :=
  queryEvs ":TIM:SCAL?" ++ queryEvs ":WAV:POINTS:MODE?" ++ queryEvs ":ACQ:MEMDEPTH?"

/-- The diagnostic printed by getNDevs on a time/div key miss (line 480; the
quote characters around the function name are elided). -/
def keyErrMsg : String :=
  "ERROR: The current time/dev setting of the scope was not coded into the getNDevs function!"

/-- Trace-carrying getNDevs.  The console events equal the three configuration
queries, plus the key-miss diagnostic print exactly when the lookup in
`getNDevs` fails with the unbound `nDev` (the only path that executes the
`except KeyError` print at line 480). -/
def getNDevsRun (tDev : ℚ) (mode depth : String) (nChan : ℤ) :
    List IOEvent × PyResult ℚ :=
  let r := getNDevs tDev mode depth nChan
  (nDevsQueryEvs ++
    (if r = .error (.unboundLocal "nDev") then [IOEvent.print keyErrMsg] else []), r)

/-- The configuration snapshot a read works against: the strings and numbers
the instrument reports for mode, depth, time scale, time offset, and the
per-channel vertical offset and scale, plus the channel count stored on the
session object. -/
structure ScopeConfig where
  mode : String
  depth : String
  nChannels : ℤ
  tScale : ℚ
  tOffs : ℚ
  vOffs : ℤ → ℚ
  vScale : ℤ → ℚ

/-- Model of `np.arange(start, stop, step)`: `⌈(stop - start)/step⌉` points
`start + i*step`. -/
def arange (start stop step : ℚ) : List ℚ :=
  (List.range ⌈(stop - start) / step⌉.toNat).map (fun (i : ℕ) => start + (i : ℚ) * step)

/-- Source: RigolInstruments.py lines 485-503 (RigolDS1102.getTimeVec), time
vector construction: `nDataPoints = nPoints - 10`,
`dt = tScale*nDevs/nDataPoints`,
`timeVec = np.arange(-tScale*nDevs/2, tScale*nDevs/2, dt) + tOffs`. -/
def timeVecOf (cfg : ScopeConfig) (n : ℕ) (d : ℚ) : List ℚ :=
  let m : ℕ := n - 10
  let dt := cfg.tScale * d / (m : ℚ)
  (arange (-(cfg.tScale * d) / 2) (cfg.tScale * d / 2) dt).map (fun x => x + cfg.tOffs)

/-- Source: RigolInstruments.py lines 485-503 with its callees: getNPoints,
getTScale (line 180), getTOffset (line 186), getNDevs, then `print(nDevs)`
(line 498) and the time vector.  An exception from getNPoints or getNDevs
propagates; the queries issued up to that point remain on the trace. -/
def getTimeVecRun (cfg : ScopeConfig) : List IOEvent × PyResult (ℕ × List ℚ) :=
  match getNPoints cfg.mode cfg.depth cfg.nChannels with
  | .error e => (nPointsQueryEvs, .error e)
  | .ok n =>
    let pre := nPointsQueryEvs ++ queryEvs ":TIM:SCAL?" ++ queryEvs ":TIM:OFFS?"
    match getNDevsRun cfg.tScale cfg.mode cfg.depth cfg.nChannels with
    | (devEvs, .error e) => (pre ++ devEvs, .error e)
    | (devEvs, .ok d) =>
      (pre ++ devEvs ++ [IOEvent.printNum d], .ok (n, timeVecOf cfg n d))

/-- The waveform-data command of readTrace (line 355),
`':WAV:DATA? CHAN' + str(channel)`. -/
def readTraceCmd (ch : ℤ) : String := ":WAV:DATA? CHAN" ++ toString ch

/-- Source: RigolInstruments.py lines 353-364 (RigolDS1102.readTrace): write
the waveform-data command, read `nPoints` bytes, drop the first 10 header
bytes.  The bytes delivered by the instrument are a parameter. -/
def readTraceRun (ch : ℤ) (nPoints : ℕ) (raw : List ℕ) : List IOEvent × List ℕ :=
  ([IOEvent.write (readTraceCmd ch), IOEvent.read nPoints], raw.drop 10)

/-- The vertical offset query command of getVOffset (line 170). -/
def vOffsCmd (ch : ℤ) : String := ":CHAN" ++ toString ch ++ ":OFFS?"

/-- The vertical scale query command of getVScale (line 163). -/
def vScaleCmd (ch : ℤ) : String := ":CHAN" ++ toString ch ++ ":SCAL?"

/-- Queries issued by rescaleToVolts (lines 368-369): getVOffset then
getVScale of the channel. -/
def rescaleEvs (ch : ℤ) : List IOEvent := queryEvs (vOffsCmd ch) ++ queryEvs (vScaleCmd ch)

/-- The channel argument of readWaveform: 1, 2, or BOTH. -/
inductive ChannelSel where
  | num (k : ℤ)
  | both
  deriving DecidableEq, Repr

/-- Line 390: for BOTH the read starts with channel 1. -/
def chNum : ChannelSel → ℤ
  | .both => 1
  | .num k => k

/-- Lines 388-394: whether both channels are read. -/
def isBoth : ChannelSel → Bool
  | .both => true
  | .num _ => false

/-- Source: RigolInstruments.py lines 373-421 (RigolDS1102.readWaveform).
Steps in source order: getTimeVec (line 384, aborting the call if it raises);
channel parse; `if nPoints > 610 and stopping: write(":STOP")` (lines 396-400);
readTrace of the selected channel (line 404); readTrace of channel 2 when BOTH
(line 406); `if nPoints > 610: write(":RUN")` (lines 408-410) — note this
resume is not conditioned on `stopping`; rescaleToVolts per channel (lines
413-416, querying that channel's vertical offset and scale); column stacking.
Returns the full event trace and the decoded columns
[time, CH1] or [time, CH1, CH2]. -/
def readWaveformRun (cfg : ScopeConfig) (chan : ChannelSel) (stopping : Bool)
    (raw1 raw2 : List ℕ) : List IOEvent × PyResult (List (List ℚ)) :=
  match getTimeVecRun cfg with
  | (t0, .error e) => (t0, .error e)
  | (t0, .ok (n, tData)) =>
    let ch : ℤ := chNum chan
    let stopEvs := if 610 < n ∧ stopping = true then [IOEvent.write ":STOP"] else []
    let (r1Evs, data) := readTraceRun ch n raw1
    let (r2Evs, data2) := if isBoth chan then readTraceRun 2 n raw2 else ([], [])
    let runEvs := if 610 < n then [IOEvent.write ":RUN"] else []
    let Vdata := rescaleToVolts data (cfg.vOffs ch) (cfg.vScale ch)
    if isBoth chan then
      (t0 ++ stopEvs ++ r1Evs ++ r2Evs ++ runEvs ++ rescaleEvs ch ++ rescaleEvs 2,
        .ok [tData, Vdata, rescaleToVolts data2 (cfg.vOffs 2) (cfg.vScale 2)])
    else
      (t0 ++ stopEvs ++ r1Evs ++ r2Evs ++ runEvs ++ rescaleEvs ch,
        .ok [tData, Vdata])

/-! ## RigolDG1032.loadVolatile

Source: RigolInstruments.py lines 1061-1107 (RigolDG1032.loadVolatile) and its
near-verbatim duplicate at lines 854-900 (RigolDG1032TMC.loadVolatile); the two
differ only in settle delays and in how the arbitrary-mode configuration is
issued, not in the rescaling arithmetic modelled here. -/

/-- numpy `max` over a nonempty array. -/
def listMax : List ℚ → ℚ
  | [] => 0
  | x :: xs => xs.foldl max x

/-- numpy `min` over a nonempty array. -/
def listMin : List ℚ → ℚ
  | [] => 0
  | x :: xs => xs.foldl min x

/-- Float division whose result is undefined (numpy emits nan/inf) when the
divisor is zero; the undefined value is modelled as `none` and propagates. -/
def pyDiv (a b : ℚ) : Option ℚ := if b = 0 then none else some (a / b)

/-- Source: lines 1075-1084 (and 868-877): `VMin = V.min()`,
`VAmpl = V.max() - V.min()`, `V = (V - VMin)/VAmpl`, then
`val_list = np.round(V*pointRange)`.  A zero `VAmpl` makes every quantized
value undefined. -/
def loadVolatileVals (V : List ℚ) (pointRange : ℤ) : List (Option ℤ) :=
  let VMin := listMin V
  let VAmpl := listMax V - VMin
  V.map (fun v => (pyDiv (v - VMin) VAmpl).map (fun r => npRound (r * pointRange)))

/-- One step of loadVolatile as visible from outside: the rescaling division
(recorded with its divisor), the point-count configuration, and the point-by-
point uploads (`enumerate(val_list, start=1)`, lines 1104-1107).  The
`setArbitrary` configuration step between rescale and upload involves no
division of interest and is elided.  An upload of an undefined (nan-derived)
value carries `none`. -/
inductive ArbEvent where
  | rescaleDiv (divisor : ℚ)
  | setPoints (n : ℕ)
  | uploadPoint (idx : ℕ) (val : Option ℤ)
  deriving DecidableEq, Repr

/-- Upload events for `enumerate(val_list, start=i)`: one `uploadPoint` per
value, numbered consecutively from `i`. -/
def enumFrom1 : ℕ → List (Option ℤ) → List ArbEvent
  | _, [] => []
  | i, v :: vs => ArbEvent.uploadPoint i v :: enumFrom1 (i + 1) vs

/-- Source: RigolInstruments.py lines 1061-1107 / 854-900: the rescaling step
(with its divisor `VAmpl`) happens first, the number of points is configured,
and only then are the points uploaded one by one, numbered from 1
(`enumerate(val_list, start=1)`). -/
def loadVolatileEvents (t V : List ℚ) (pointRange : ℤ) : List ArbEvent :=
  ArbEvent.rescaleDiv (listMax V - listMin V) ::
  ArbEvent.setPoints t.length ::
  enumFrom1 1 (loadVolatileVals V pointRange)

/-! ## Named traces and concrete configurations used in the statements -/

/-- The queries a successful getTimeVec issues, with the `print(nDevs)` of its
resolved division count `d`: getNPoints (two queries), getTScale, getTOffset,
then the three queries of getNDevs. -/
def okPreTrace (d : ℚ) : List IOEvent :=
  nPointsQueryEvs ++ queryEvs ":TIM:SCAL?" ++ queryEvs ":TIM:OFFS?" ++
    nDevsQueryEvs ++ [IOEvent.printNum d]

/-- The full event trace of a waveform read that dies in getNDevs on a time/div
key miss: only the configuration queries and the key-miss diagnostic; no stop,
no waveform-data request, no resume. -/
def nDevErrTrace : List IOEvent :=
  nPointsQueryEvs ++ queryEvs ":TIM:SCAL?" ++ queryEvs ":TIM:OFFS?" ++
    nDevsQueryEvs ++ [IOEvent.print keyErrMsg]

/-- A NORMAL-mode configuration used as a concrete witness input. -/
def cfgW : ScopeConfig :=
  { mode := "NORMAL", depth := "NORMAL", nChannels := 2, tScale := 1, tOffs := 0,
    vOffs := fun _ => 0, vScale := fun _ => 1 }

/-- A RAW/LONG single-channel configuration whose time/div 3e-3 has no entry in
the RAW+LONG 1-channel table. -/
def cfg3 : ScopeConfig :=
  { mode := "RAW", depth := "LONG", nChannels := 1, tScale := 3/1000, tOffs := 0,
    vOffs := fun _ => 0, vScale := fun _ => 1 }

/-- A RAW/NORMAL two-channel configuration with time/div 20e-3 (in the table,
41 divisions, 8202 expected bytes). -/
def cfg5 : ScopeConfig :=
  { mode := "RAW", depth := "NORMAL", nChannels := 2, tScale := 1/50, tOffs := 0,
    vOffs := fun _ => 0, vScale := fun _ => 1 }

/-- A raw byte buffer of the NORMAL-mode expected length 610. -/
def rawW : List ℕ := List.replicate 610 0

/-! ## Helper lemmas -/

/-- The tie-to-even rounding differs from its argument by at most one half. -/
theorem abs_npRound_sub (x : ℚ) : |((npRound x : ℤ) : ℚ) - x| ≤ 1 / 2 := by
  unfold npRound
  split_ifs with h1 h2
  · rw [abs_sub_comm, h1, abs_of_pos (by norm_num : (0:ℚ) < 1/2)]
  · push_cast
    rw [show ((⌊x⌋ : ℚ) + 1) - x = 1 / 2 by linarith]
    rw [abs_of_pos (by norm_num : (0:ℚ) < 1/2)]
  · rw [abs_sub_comm]
    exact abs_sub_round x

/-! ## C1 -/

/-- C1: for every raw byte b in 0..255 and every queried vertical offset o and
scale s, rescaleToVolts maps b to ((255 - b) - 130 - o/s*25) / 25 * s; for
b = 130, o = 0 and any scale s the decoded voltage is -0.2*s. -/
theorem C1_rescale_formula (b : ℕ) (hb : b ≤ 255) (o s : ℚ) :
    rescaleSample (b : ℚ) o s = ((255 - (b : ℚ)) - 130 - o / s * 25) / 25 * s ∧
    rescaleSample 130 0 s = -(1/5) * s := by
  constructor
  · unfold rescaleSample; ring
  · unfold rescaleSample
    rw [zero_div]
    ring

/-- Witness for C1 at b = 130, o = 0, s = 2. -/
theorem C1_witness : (130 : ℕ) ≤ 255 ∧
    (rescaleSample ((130 : ℕ) : ℚ) 0 2 = ((255 - ((130 : ℕ) : ℚ)) - 130 - 0 / 2 * 25) / 25 * 2 ∧
     rescaleSample 130 0 2 = -(1/5) * 2) :=
  ⟨by norm_num, C1_rescale_formula 130 (by norm_num) 0 2⟩

/-! ## C2 -/

/-- C2: with acquisition mode NORMAL, regardless of memory depth, channel count
and time/div, getNPoints resolves to 610 (600 data bytes plus 10 header bytes)
and getNDevs resolves to 12. -/
theorem C2_normal_mode (depth : String) (nChan : ℤ) (tDev : ℚ) :
    getNPoints "NORMAL" depth nChan = .ok (600 + 10) ∧
    getNDevs tDev "NORMAL" depth nChan = .ok 12 := by
  constructor <;> simp [getNPoints, getNDevs]

/-! ## C4 -/

/-- C4 counterexample: at the unmatched triple (RAW, LONG, 3 channels) the code
fails with the unbound-local error for `nPoints` (the count is left unset), not
with the designed UnsupportedConfiguration error the claim requires. -/
theorem C4_counterexample :
    getNPoints "RAW" "LONG" 3 = .error (.unboundLocal "nPoints") ∧
    getNPoints "RAW" "LONG" 3 ≠ .error .unsupportedConfiguration := by
  constructor <;> decide

/-- C4 amended: every triple either resolves to one of the five fixed counts,
or leaves the count unset so that the assignment `self.nPoints = nPoints`
raises UnboundLocalError (no designed UnsupportedConfiguration is raised). -/
theorem C4_amended (mode depth : String) (nChan : ℤ) :
    (∃ n, getNPoints mode depth nChan = .ok n ∧
      (n = 610 ∨ n = 8202 ∨ n = 16394 ∨ n = 524298 ∨ n = 1048586)) ∨
    getNPoints mode depth nChan = .error (.unboundLocal "nPoints") := by
  unfold getNPoints
  split_ifs <;> simp

/-! ## C8 -/

/-- C8: quantizing a value in [0,1] with V2b and decoding with b2V moves it by
at most 1/16383. -/
theorem C8_roundtrip (v : ℚ) (h0 : 0 ≤ v) (h1 : v ≤ 1) :
    |b2V ((V2b v : ℤ) : ℚ) - v| ≤ 1 / 16383 := by
  have h := abs_npRound_sub ((bitrange : ℚ) * v)
  unfold b2V V2b
  have hb : ((bitrange : ℕ) : ℚ) = 16383 := by norm_num [bitrange]
  rw [hb] at h ⊢
  rw [show (npRound (16383 * v) : ℚ) / 16383 - v
        = ((npRound (16383 * v) : ℚ) - 16383 * v) / 16383 by ring]
  rw [abs_div]
  rw [show |(16383 : ℚ)| = 16383 by norm_num]
  rw [div_le_div_iff (by norm_num) (by norm_num)]
  nlinarith [abs_nonneg ((npRound (16383 * v) : ℚ) - 16383 * v)]

/-- Witness for C8 at v = 1/2. -/
theorem C8_witness : (0 : ℚ) ≤ 1/2 ∧ (1/2 : ℚ) ≤ 1 ∧
    |b2V ((V2b (1/2) : ℤ) : ℚ) - 1/2| ≤ 1 / 16383 :=
  ⟨by norm_num, by norm_num, C8_roundtrip (1/2) (by norm_num) (by norm_num)⟩

/-! ## C9 -/

/-- C9 counterexample: a deterministic instrument whose display reply is the
same string "1" for every query makes getNumChannels return 1, so the claim
that a channel count of 1 is never produced under deterministic replies fails. -/
theorem C9_counterexample : getNumChannels (fun _ => "1") = 1 := by decide

/-- C9 amended: both queries issue ":CHAN1:DISP?", so the result depends only
on channel 1 reply: "ON" gives 2, "OFF" gives 0, and every reply other than
"ON" and "OFF" gives 1; the result is never 1 when that reply is "ON" or
"OFF", even if channel 2 display state differs. -/
theorem C9_amended (f g : String → String) :
    (f ":CHAN1:DISP?" = "ON" → getNumChannels f = 2) ∧
    (f ":CHAN1:DISP?" = "OFF" → getNumChannels f = 0) ∧
    (f ":CHAN1:DISP?" ≠ "ON" → f ":CHAN1:DISP?" ≠ "OFF" → getNumChannels f = 1) ∧
    ((f ":CHAN1:DISP?" = "ON" ∨ f ":CHAN1:DISP?" = "OFF") → getNumChannels f ≠ 1) ∧
    (f ":CHAN1:DISP?" = g ":CHAN1:DISP?" → getNumChannels f = getNumChannels g) := by
  refine ⟨?_, ?_, ?_, ?_, ?_⟩
  · intro h; simp [getNumChannels, h]
  · intro h; simp [getNumChannels, h]
  · intro h1 h2; simp [getNumChannels, h1, h2]
  · rintro (h | h) <;> simp [getNumChannels, h]
  · intro h; simp only [getNumChannels, h]

/-- Witness for C9 at the constant replies "ON", "OFF" and "MAYBE". -/
theorem C9_witness :
    getNumChannels (fun _ => "ON") = 2 ∧ getNumChannels (fun _ => "OFF") = 0 ∧
    getNumChannels (fun _ => "MAYBE") = 1 :=
  ⟨(C9_amended (fun _ => "ON") (fun _ => "ON")).1 rfl,
   (C9_amended (fun _ => "OFF") (fun _ => "OFF")).2.1 rfl,
   (C9_amended (fun _ => "MAYBE") (fun _ => "MAYBE")).2.2.1 (by decide) (by decide)⟩

/-! ## Helper lemmas about commands, tables and lengths -/

/-- A waveform-data command is at least 15 characters, so it never equals a
short fixed command such as ":RUN" or ":STOP". -/
theorem readTraceCmd_ne (k : ℤ) (s : String) (hs : s.length < 15) :
    readTraceCmd k ≠ s := by
  intro he
  have hl := congrArg String.length he
  rw [readTraceCmd, String.length_append,
    show String.length ":WAV:DATA? CHAN" = 15 by decide] at hl
  omega

/-- A vertical-offset query command is at least 11 characters. -/
theorem vOffsCmd_ne (k : ℤ) (s : String) (hs : s.length < 11) :
    vOffsCmd k ≠ s := by
  intro he
  have hl := congrArg String.length he
  rw [vOffsCmd, String.length_append, String.length_append,
    show String.length ":CHAN" = 5 by decide,
    show String.length ":OFFS?" = 6 by decide] at hl
  omega

/-- A vertical-scale query command is at least 11 characters. -/
theorem vScaleCmd_ne (k : ℤ) (s : String) (hs : s.length < 11) :
    vScaleCmd k ≠ s := by
  intro he
  have hl := congrArg String.length he
  rw [vScaleCmd, String.length_append, String.length_append,
    show String.length ":CHAN" = 5 by decide,
    show String.length ":SCAL?" = 6 by decide] at hl
  omega

/-- A hit in an association list returns one of its stored values. -/
theorem alookup_mem_values (k v : ℚ) (l : List (ℚ × ℚ)) (h : alookup k l = some v) :
    ∃ p ∈ l, p.2 = v := by
  induction l with
  | nil => simp [alookup] at h
  | cons p ps ih =>
    rw [alookup] at h
    split_ifs at h with hk
    · exact ⟨p, List.mem_cons_self p ps, Option.some.inj h⟩
    · obtain ⟨q, hq, hv⟩ := ih h
      exact ⟨q, List.mem_cons_of_mem _ hq, hv⟩

/-- A successful table lookup returns a positive value when all stored values
are positive. -/
theorem lookupNDev_pos (dict : List (ℚ × ℚ)) (tDev v : ℚ)
    (hall : ∀ p ∈ dict, 0 < p.2) (h : lookupNDev dict tDev = .ok v) : 0 < v := by
  unfold lookupNDev at h
  cases ha : alookup tDev dict with
  | none => rw [ha] at h; exact PyResult.noConfusion h
  | some w =>
    rw [ha] at h
    obtain ⟨p, hp, hv⟩ := alookup_mem_values tDev w dict ha
    have hw : w = v := PyResult.ok.inj h
    rw [← hw, ← hv]
    exact hall p hp

theorem rawNormal1Dict_pos : ∀ p ∈ rawNormal1Dict, 0 < p.2 := by
  intro p hp; fin_cases hp <;> norm_num

theorem rawNormal2Dict_pos : ∀ p ∈ rawNormal2Dict, 0 < p.2 := by
  intro p hp; fin_cases hp <;> norm_num

theorem rawLong1Dict_pos : ∀ p ∈ rawLong1Dict, 0 < p.2 := by
  intro p hp; fin_cases hp <;> norm_num

theorem rawLong2Dict_pos : ∀ p ∈ rawLong2Dict, 0 < p.2 := by
  intro p hp; fin_cases hp <;> norm_num

/-- Every division count getNDevs can resolve is positive. -/
theorem getNDevs_pos (tDev : ℚ) (mode depth : String) (nChan : ℤ) (d : ℚ)
    (h : getNDevs tDev mode depth nChan = .ok d) : 0 < d := by
  unfold getNDevs at h
  split_ifs at h <;> first
    | (cases h; norm_num)
    | exact PyResult.noConfusion h
    | exact lookupNDev_pos _ _ _ rawNormal1Dict_pos h
    | exact lookupNDev_pos _ _ _ rawNormal2Dict_pos h
    | exact lookupNDev_pos _ _ _ rawLong1Dict_pos h
    | exact lookupNDev_pos _ _ _ rawLong2Dict_pos h

/-- Every sample count getNPoints can resolve is at least 610. -/
theorem getNPoints_ge (mode depth : String) (nChan : ℤ) (n : ℕ)
    (h : getNPoints mode depth nChan = .ok n) : 610 ≤ n := by
  unfold getNPoints at h
  split_ifs at h <;> first
    | (cases h; norm_num)
    | exact PyResult.noConfusion h

/-- Length of the arange model. -/
theorem arange_length (start stop step : ℚ) :
    (arange start stop step).length = ⌈(stop - start) / step⌉.toNat := by
  unfold arange
  rw [List.length_map, List.length_range]

/-- The time vector has exactly the expected data length. -/
theorem timeVecOf_length (cfg : ScopeConfig) (n : ℕ) (d : ℚ)
    (ht : 0 < cfg.tScale) (hd : 0 < d) (hn : 610 ≤ n) :
    (timeVecOf cfg n d).length = n - 10 := by
  have hmQ : ((n - 10 : ℕ) : ℚ) ≠ 0 := Nat.cast_ne_zero.mpr (by omega)
  have ha : cfg.tScale * d ≠ 0 := ne_of_gt (mul_pos ht hd)
  simp only [timeVecOf]
  rw [List.length_map, arange_length]
  rw [show (cfg.tScale * d / 2 - -(cfg.tScale * d) / 2) = cfg.tScale * d by ring]
  rw [show cfg.tScale * d / (cfg.tScale * d / ((n - 10 : ℕ) : ℚ)) = ((n - 10 : ℕ) : ℚ) by
    field_simp]
  rw [Int.ceil_natCast]
  exact Int.toNat_natCast _

/-! ## Characterizations of the pipeline runs -/

/-- When both resolutions succeed, getTimeVec issues exactly the configuration
queries, prints the division count, and returns the time vector. -/
theorem getTimeVecRun_ok (cfg : ScopeConfig) (n : ℕ) (d : ℚ)
    (hN : getNPoints cfg.mode cfg.depth cfg.nChannels = .ok n)
    (hD : getNDevs cfg.tScale cfg.mode cfg.depth cfg.nChannels = .ok d) :
    getTimeVecRun cfg = (okPreTrace d, .ok (n, timeVecOf cfg n d)) := by
  unfold getTimeVecRun getNDevsRun
  rw [hN, hD]
  simp [okPreTrace, List.append_assoc]

/-- When the time/div lookup misses, getTimeVec issues only the configuration
queries and the diagnostic print, and surfaces the unbound `nDev` error. -/
theorem getTimeVecRun_nDevErr (cfg : ScopeConfig) (n : ℕ)
    (hN : getNPoints cfg.mode cfg.depth cfg.nChannels = .ok n)
    (hD : getNDevs cfg.tScale cfg.mode cfg.depth cfg.nChannels =
      .error (.unboundLocal "nDev")) :
    getTimeVecRun cfg = (nDevErrTrace, .error (.unboundLocal "nDev")) := by
  unfold getTimeVecRun getNDevsRun
  rw [hN, hD]
  simp [nDevErrTrace, List.append_assoc]

/-- A getTimeVec failure aborts readWaveform with the same error. -/
theorem readWaveformRun_snd_err (cfg : ScopeConfig) (chan : ChannelSel)
    (stopping : Bool) (raw1 raw2 : List ℕ) (e : PyError)
    (h : (getTimeVecRun cfg).2 = .error e) :
    (readWaveformRun cfg chan stopping raw1 raw2).2 = .error e := by
  unfold readWaveformRun
  rcases hT : getTimeVecRun cfg with ⟨t, r⟩
  rw [hT] at h
  dsimp only at h
  subst h
  rfl

/-- A getNDevs failure surfaces through getTimeVec unchanged. -/
theorem getTimeVecRun_snd_of_nDevs_err (cfg : ScopeConfig) (n : ℕ) (e : PyError)
    (hN : getNPoints cfg.mode cfg.depth cfg.nChannels = .ok n)
    (hD : getNDevs cfg.tScale cfg.mode cfg.depth cfg.nChannels = .error e) :
    (getTimeVecRun cfg).2 = .error e := by
  unfold getTimeVecRun getNDevsRun
  rw [hN, hD]

/-- Full characterization of a single-channel read under successful
resolution. -/
theorem readWaveformRun_num (cfg : ScopeConfig) (k : ℤ) (stopping : Bool)
    (raw1 raw2 : List ℕ) (n : ℕ) (d : ℚ)
    (hN : getNPoints cfg.mode cfg.depth cfg.nChannels = .ok n)
    (hD : getNDevs cfg.tScale cfg.mode cfg.depth cfg.nChannels = .ok d) :
    readWaveformRun cfg (.num k) stopping raw1 raw2 =
      (okPreTrace d ++
        (if 610 < n ∧ stopping = true then [IOEvent.write ":STOP"] else []) ++
        ([IOEvent.write (readTraceCmd k), IOEvent.read n] ++
          ((if 610 < n then [IOEvent.write ":RUN"] else []) ++ rescaleEvs k)),
       .ok [timeVecOf cfg n d,
            rescaleToVolts (raw1.drop 10) (cfg.vOffs k) (cfg.vScale k)]) := by
  unfold readWaveformRun
  rw [getTimeVecRun_ok cfg n d hN hD]
  simp [readTraceRun, chNum, isBoth, List.append_assoc]

/-- Full characterization of a BOTH read under successful resolution. -/
theorem readWaveformRun_both (cfg : ScopeConfig) (stopping : Bool)
    (raw1 raw2 : List ℕ) (n : ℕ) (d : ℚ)
    (hN : getNPoints cfg.mode cfg.depth cfg.nChannels = .ok n)
    (hD : getNDevs cfg.tScale cfg.mode cfg.depth cfg.nChannels = .ok d) :
    readWaveformRun cfg .both stopping raw1 raw2 =
      (okPreTrace d ++
        (if 610 < n ∧ stopping = true then [IOEvent.write ":STOP"] else []) ++
        ([IOEvent.write (readTraceCmd 1), IOEvent.read n] ++
          ([IOEvent.write (readTraceCmd 2), IOEvent.read n] ++
            ((if 610 < n then [IOEvent.write ":RUN"] else []) ++
              (rescaleEvs 1 ++ rescaleEvs 2)))),
       .ok [timeVecOf cfg n d,
            rescaleToVolts (raw1.drop 10) (cfg.vOffs 1) (cfg.vScale 1),
            rescaleToVolts (raw2.drop 10) (cfg.vOffs 2) (cfg.vScale 2)]) := by
  unfold readWaveformRun
  rw [getTimeVecRun_ok cfg n d hN hD]
  simp [readTraceRun, chNum, isBoth, List.append_assoc]

/-! ## C3 -/

/-- C3 counterexample: at time/div 3e-3 in RAW+LONG 1-channel mode the lookup
misses and resolution fails with the unbound-local error for `nDev` (after the
caught KeyError only printed a diagnostic), not with the designed
UnsupportedConfiguration error the claim names. -/
theorem C3_counterexample :
    getNDevs (3/1000) "RAW" "LONG" 1 = .error (.unboundLocal "nDev") ∧
    getNDevs (3/1000) "RAW" "LONG" 1 ≠ .error .unsupportedConfiguration := by
  have h : getNDevs (3/1000) "RAW" "LONG" 1 = .error (.unboundLocal "nDev") := by
    simp [getNDevs]
    norm_num [lookupNDev, alookup, rawLong1Dict]
  exact ⟨h, by rw [h]; simp⟩

/-- C3 amended: when the sample count resolves but the RAW-mode time/div lookup
misses, the whole waveform read aborts with the unbound-local `nDev` error
(reported to the caller, with a diagnostic printed, so not silent), and the
transport trace holds only the configuration queries: no stop command, no
resume command, no waveform-data request, and no transport read other than the
fixed 100-byte query reads. -/
theorem C3_amended (cfg : ScopeConfig) (chan : ChannelSel) (stopping : Bool)
    (raw1 raw2 : List ℕ) (n : ℕ)
    (hN : getNPoints cfg.mode cfg.depth cfg.nChannels = .ok n)
    (hD : getNDevs cfg.tScale cfg.mode cfg.depth cfg.nChannels =
      .error (.unboundLocal "nDev")) :
    readWaveformRun cfg chan stopping raw1 raw2 =
      (nDevErrTrace, .error (.unboundLocal "nDev")) ∧
    IOEvent.print keyErrMsg ∈ nDevErrTrace ∧
    IOEvent.write ":STOP" ∉ nDevErrTrace ∧
    IOEvent.write ":RUN" ∉ nDevErrTrace ∧
    IOEvent.write (readTraceCmd 1) ∉ nDevErrTrace ∧
    IOEvent.write (readTraceCmd 2) ∉ nDevErrTrace ∧
    (∀ m, IOEvent.read m ∈ nDevErrTrace → m = 100) := by
  have hT := getTimeVecRun_nDevErr cfg n hN hD
  refine ⟨?_, by decide, by decide, by decide, by decide, by decide, ?_⟩
  · unfold readWaveformRun
    rw [hT]
  · intro m hm
    simp [nDevErrTrace, nPointsQueryEvs, nDevsQueryEvs, queryEvs, keyErrMsg] at hm
    exact hm

/-- Witness for C3 at the RAW/LONG single-channel configuration with
time/div 3e-3. -/
theorem C3_witness :
    getNPoints cfg3.mode cfg3.depth cfg3.nChannels = .ok 1048586 ∧
    getNDevs cfg3.tScale cfg3.mode cfg3.depth cfg3.nChannels =
      .error (.unboundLocal "nDev") ∧
    (readWaveformRun cfg3 (.num 1) true [] [] =
        (nDevErrTrace, .error (.unboundLocal "nDev")) ∧
      IOEvent.print keyErrMsg ∈ nDevErrTrace ∧
      IOEvent.write ":STOP" ∉ nDevErrTrace ∧
      IOEvent.write ":RUN" ∉ nDevErrTrace ∧
      IOEvent.write (readTraceCmd 1) ∉ nDevErrTrace ∧
      IOEvent.write (readTraceCmd 2) ∉ nDevErrTrace ∧
      (∀ m, IOEvent.read m ∈ nDevErrTrace → m = 100)) := by
  have hN : getNPoints cfg3.mode cfg3.depth cfg3.nChannels = .ok 1048586 := by decide
  have hD : getNDevs cfg3.tScale cfg3.mode cfg3.depth cfg3.nChannels =
      .error (.unboundLocal "nDev") := by
    simp [cfg3, getNDevs]
    norm_num [lookupNDev, alookup, rawLong1Dict]
  exact ⟨hN, hD, C3_amended cfg3 (.num 1) true [] [] 1048586 hN hD⟩

/-! ## C5 -/

/-- C5 counterexample: in a RAW configuration expecting 8202 bytes with
stopping = false, the call issues no stop command yet still issues the resume
command, so the resume is not conditioned on a stop having been sent. -/
theorem C5_counterexample :
    IOEvent.write ":RUN" ∈ (readWaveformRun cfg5 (.num 1) false [] []).1 ∧
    IOEvent.write ":STOP" ∉ (readWaveformRun cfg5 (.num 1) false [] []).1 := by
  have hN : getNPoints cfg5.mode cfg5.depth cfg5.nChannels = .ok 8202 := by decide
  have hD : getNDevs cfg5.tScale cfg5.mode cfg5.depth cfg5.nChannels = .ok 41 := by
    simp [cfg5, getNDevs]
    norm_num [lookupNDev, alookup, rawNormal2Dict]
  rw [readWaveformRun_num cfg5 1 false [] [] 8202 41 hN hD]
  constructor <;> decide

/-- C5 amended: under successful resolution the stop command is issued exactly
when the expected count exceeds 610 and the caller asked for stopping, while
the resume command is issued exactly when the expected count exceeds 610 —
regardless of `stopping`.  In particular with count above 610 and
stopping = false, no stop is sent but a resume is. -/
theorem C5_amended (cfg : ScopeConfig) (chan : ChannelSel) (stopping : Bool)
    (raw1 raw2 : List ℕ) (n : ℕ) (d : ℚ)
    (hN : getNPoints cfg.mode cfg.depth cfg.nChannels = .ok n)
    (hD : getNDevs cfg.tScale cfg.mode cfg.depth cfg.nChannels = .ok d) :
    (IOEvent.write ":RUN" ∈ (readWaveformRun cfg chan stopping raw1 raw2).1 ↔
      610 < n) ∧
    (IOEvent.write ":STOP" ∈ (readWaveformRun cfg chan stopping raw1 raw2).1 ↔
      610 < n ∧ stopping = true) := by
  rcases chan with k | _
  · rw [readWaveformRun_num cfg k stopping raw1 raw2 n d hN hD]
    have e1 := (readTraceCmd_ne k ":RUN" (by decide)).symm
    have e2 := (readTraceCmd_ne k ":STOP" (by decide)).symm
    have e3 := (vOffsCmd_ne k ":RUN" (by decide)).symm
    have e4 := (vOffsCmd_ne k ":STOP" (by decide)).symm
    have e5 := (vScaleCmd_ne k ":RUN" (by decide)).symm
    have e6 := (vScaleCmd_ne k ":STOP" (by decide)).symm
    by_cases hn : 610 < n <;> by_cases hst : stopping = true <;>
      simp [okPreTrace, nPointsQueryEvs, nDevsQueryEvs, queryEvs, rescaleEvs,
        hn, hst, e1, e2, e3, e4, e5, e6]
  · rw [readWaveformRun_both cfg stopping raw1 raw2 n d hN hD]
    have e1 := (readTraceCmd_ne 1 ":RUN" (by decide)).symm
    have e2 := (readTraceCmd_ne 1 ":STOP" (by decide)).symm
    have e3 := (vOffsCmd_ne 1 ":RUN" (by decide)).symm
    have e4 := (vOffsCmd_ne 1 ":STOP" (by decide)).symm
    have e5 := (vScaleCmd_ne 1 ":RUN" (by decide)).symm
    have e6 := (vScaleCmd_ne 1 ":STOP" (by decide)).symm
    have e7 := (readTraceCmd_ne 2 ":RUN" (by decide)).symm
    have e8 := (readTraceCmd_ne 2 ":STOP" (by decide)).symm
    have e9 := (vOffsCmd_ne 2 ":RUN" (by decide)).symm
    have e10 := (vOffsCmd_ne 2 ":STOP" (by decide)).symm
    have e11 := (vScaleCmd_ne 2 ":RUN" (by decide)).symm
    have e12 := (vScaleCmd_ne 2 ":STOP" (by decide)).symm
    by_cases hn : 610 < n <;> by_cases hst : stopping = true <;>
      simp [okPreTrace, nPointsQueryEvs, nDevsQueryEvs, queryEvs, rescaleEvs,
        hn, hst, e1, e2, e3, e4, e5, e6, e7, e8, e9, e10, e11, e12]

/-- Witness for C5: a RAW configuration expecting 8202 bytes, stopping
requested. -/
theorem C5_witness :
    (IOEvent.write ":RUN" ∈ (readWaveformRun cfg5 (.num 1) true [] []).1 ↔
      610 < 8202) ∧
    (IOEvent.write ":STOP" ∈ (readWaveformRun cfg5 (.num 1) true [] []).1 ↔
      610 < 8202 ∧ true = true) :=
  C5_amended cfg5 (.num 1) true [] [] 8202 41 (by decide)
    (by simp [cfg5, getNDevs]; norm_num [lookupNDev, alookup, rawNormal2Dict])

/-! ## C6 -/

/-- C6: whenever a waveform read completes (the instrument delivered the
expected byte count for each requested channel), every decoded column — the
time column and each voltage column — has length equal to the expected sample
count minus the 10-byte header. -/
theorem C6_trace_length (cfg : ScopeConfig) (chan : ChannelSel) (stopping : Bool)
    (raw1 raw2 : List ℕ) (n : ℕ) (cols : List (List ℚ))
    (hN : getNPoints cfg.mode cfg.depth cfg.nChannels = .ok n)
    (ht : 0 < cfg.tScale)
    (h1 : raw1.length = n) (h2 : raw2.length = n)
    (hok : (readWaveformRun cfg chan stopping raw1 raw2).2 = .ok cols) :
    ∀ col ∈ cols, col.length = n - 10 := by
  cases hD : getNDevs cfg.tScale cfg.mode cfg.depth cfg.nChannels with
  | error e =>
    have herr := readWaveformRun_snd_err cfg chan stopping raw1 raw2 e
      (getTimeVecRun_snd_of_nDevs_err cfg n e hN hD)
    rw [herr] at hok
    exact PyResult.noConfusion hok
  | ok d =>
    have hd := getNDevs_pos _ _ _ _ _ hD
    have hn6 := getNPoints_ge _ _ _ _ hN
    rcases chan with k | _
    · rw [readWaveformRun_num cfg k stopping raw1 raw2 n d hN hD] at hok
      replace hok : PyResult.ok [timeVecOf cfg n d,
          rescaleToVolts (raw1.drop 10) (cfg.vOffs k) (cfg.vScale k)] =
          PyResult.ok cols := hok
      have hcols := (PyResult.ok.inj hok).symm
      subst hcols
      intro col hcol
      rcases List.mem_cons.mp hcol with rfl | hcol2
      · exact timeVecOf_length cfg n d ht hd hn6
      · rcases List.mem_cons.mp hcol2 with rfl | hcol3
        · simp only [rescaleToVolts, List.length_map, List.length_drop, h1]
        · cases hcol3
    · rw [readWaveformRun_both cfg stopping raw1 raw2 n d hN hD] at hok
      replace hok : PyResult.ok [timeVecOf cfg n d,
          rescaleToVolts (raw1.drop 10) (cfg.vOffs 1) (cfg.vScale 1),
          rescaleToVolts (raw2.drop 10) (cfg.vOffs 2) (cfg.vScale 2)] =
          PyResult.ok cols := hok
      have hcols := (PyResult.ok.inj hok).symm
      subst hcols
      intro col hcol
      rcases List.mem_cons.mp hcol with rfl | hcol2
      · exact timeVecOf_length cfg n d ht hd hn6
      · rcases List.mem_cons.mp hcol2 with rfl | hcol3
        · simp only [rescaleToVolts, List.length_map, List.length_drop, h1]
        · rcases List.mem_cons.mp hcol3 with rfl | hcol4
          · simp only [rescaleToVolts, List.length_map, List.length_drop, h2]
          · cases hcol4

/-- Witness for C6 at the NORMAL configuration with a complete 610-byte
delivery on channel 1. -/
theorem C6_witness :
    getNPoints cfgW.mode cfgW.depth cfgW.nChannels = .ok 610 ∧
    0 < cfgW.tScale ∧ rawW.length = 610 ∧
    (readWaveformRun cfgW (.num 1) true rawW rawW).2 =
      .ok [timeVecOf cfgW 610 12,
           rescaleToVolts (rawW.drop 10) (cfgW.vOffs 1) (cfgW.vScale 1)] ∧
    (∀ col ∈ [timeVecOf cfgW 610 12,
              rescaleToVolts (rawW.drop 10) (cfgW.vOffs 1) (cfgW.vScale 1)],
      col.length = 610 - 10) := by
  have hN : getNPoints cfgW.mode cfgW.depth cfgW.nChannels = .ok 610 := by decide
  have hD : getNDevs cfgW.tScale cfgW.mode cfgW.depth cfgW.nChannels = .ok 12 := by
    simp [cfgW, getNDevs]
  have hlen : rawW.length = 610 := by rw [rawW, List.length_replicate]
  have hok : (readWaveformRun cfgW (.num 1) true rawW rawW).2 =
      .ok [timeVecOf cfgW 610 12,
           rescaleToVolts (rawW.drop 10) (cfgW.vOffs 1) (cfgW.vScale 1)] := by
    rw [readWaveformRun_num cfgW 1 true rawW rawW 610 12 hN hD]
  exact ⟨hN, by norm_num [cfgW], hlen, hok,
    C6_trace_length cfgW (.num 1) true rawW rawW 610 _ hN (by norm_num [cfgW])
      hlen hlen hok⟩

/-! ## C7 -/

/-- C7: a BOTH read returns exactly three columns in the order time, CH1
voltage, CH2 voltage, the CH1 column decoded with channel 1 queried vertical
offset and scale only, the CH2 column with channel 2 offset and scale only. -/
theorem C7_both_columns (cfg : ScopeConfig) (stopping : Bool) (raw1 raw2 : List ℕ)
    (n : ℕ) (d : ℚ)
    (hN : getNPoints cfg.mode cfg.depth cfg.nChannels = .ok n)
    (hD : getNDevs cfg.tScale cfg.mode cfg.depth cfg.nChannels = .ok d) :
    ∃ cols, (readWaveformRun cfg .both stopping raw1 raw2).2 = .ok cols ∧
      cols.length = 3 ∧
      cols = [timeVecOf cfg n d,
              rescaleToVolts (raw1.drop 10) (cfg.vOffs 1) (cfg.vScale 1),
              rescaleToVolts (raw2.drop 10) (cfg.vOffs 2) (cfg.vScale 2)] := by
  refine ⟨_, ?_, by simp, rfl⟩
  rw [readWaveformRun_both cfg stopping raw1 raw2 n d hN hD]

/-- Witness for C7 at the NORMAL configuration reading both channels. -/
theorem C7_witness :
    ∃ cols, (readWaveformRun cfgW .both true rawW rawW).2 = .ok cols ∧
      cols.length = 3 ∧
      cols = [timeVecOf cfgW 610 12,
              rescaleToVolts (rawW.drop 10) (cfgW.vOffs 1) (cfgW.vScale 1),
              rescaleToVolts (rawW.drop 10) (cfgW.vOffs 2) (cfgW.vScale 2)] :=
  C7_both_columns cfgW true rawW rawW 610 12 (by decide) (by simp [cfgW, getNDevs])

/-! ## C10 helpers: numpy min and max over a list -/

theorem foldl_max_le (xs : List ℚ) (a : ℚ) : a ≤ xs.foldl max a := by
  induction xs generalizing a with
  | nil => simp
  | cons y ys ih =>
    simp only [List.foldl_cons]
    exact le_trans (le_max_left a y) (ih (max a y))

theorem mem_le_foldl_max (xs : List ℚ) : ∀ (a x : ℚ), x ∈ xs → x ≤ xs.foldl max a := by
  induction xs with
  | nil => intro a x hx; cases hx
  | cons y ys ih =>
    intro a x hx
    simp only [List.foldl_cons]
    rcases List.mem_cons.mp hx with rfl | h
    · exact le_trans (le_max_right a x) (foldl_max_le ys (max a x))
    · exact ih (max a y) x h

/-- Every element is at most the numpy maximum. -/
theorem le_listMax (V : List ℚ) (x : ℚ) (hx : x ∈ V) : x ≤ listMax V := by
  cases V with
  | nil => cases hx
  | cons y ys =>
    show x ≤ ys.foldl max y
    rcases List.mem_cons.mp hx with rfl | h
    · exact foldl_max_le ys x
    · exact mem_le_foldl_max ys y x h

theorem foldl_min_le (xs : List ℚ) (a : ℚ) : xs.foldl min a ≤ a := by
  induction xs generalizing a with
  | nil => simp
  | cons y ys ih =>
    simp only [List.foldl_cons]
    exact le_trans (ih (min a y)) (min_le_left a y)

theorem foldl_min_le_mem (xs : List ℚ) : ∀ (a x : ℚ), x ∈ xs → xs.foldl min a ≤ x := by
  induction xs with
  | nil => intro a x hx; cases hx
  | cons y ys ih =>
    intro a x hx
    simp only [List.foldl_cons]
    rcases List.mem_cons.mp hx with rfl | h
    · exact le_trans (foldl_min_le ys (min a x)) (min_le_right a x)
    · exact ih (min a y) x h

/-- The numpy minimum is at most every element. -/
theorem listMin_le (V : List ℚ) (x : ℚ) (hx : x ∈ V) : listMin V ≤ x := by
  cases V with
  | nil => cases hx
  | cons y ys =>
    show ys.foldl min y ≤ x
    rcases List.mem_cons.mp hx with rfl | h
    · exact foldl_min_le ys x
    · exact foldl_min_le_mem ys y x h

theorem foldl_max_eq_or_mem (xs : List ℚ) : ∀ a : ℚ, xs.foldl max a = a ∨ xs.foldl max a ∈ xs := by
  induction xs with
  | nil => intro a; left; rfl
  | cons y ys ih =>
    intro a
    simp only [List.foldl_cons]
    rcases ih (max a y) with h | h
    · rcases max_choice a y with hm | hm
      · left; rw [h, hm]
      · right; rw [h, hm]; exact List.mem_cons_self y ys
    · right; exact List.mem_cons_of_mem y h

/-- The numpy maximum of a nonempty list is one of its elements. -/
theorem listMax_mem (V : List ℚ) (h : V ≠ []) : listMax V ∈ V := by
  cases V with
  | nil => exact absurd rfl h
  | cons y ys =>
    show ys.foldl max y ∈ y :: ys
    rcases foldl_max_eq_or_mem ys y with h1 | h1
    · rw [h1]; exact List.mem_cons_self y ys
    · exact List.mem_cons_of_mem y h1

theorem foldl_min_eq_or_mem (xs : List ℚ) : ∀ a : ℚ, xs.foldl min a = a ∨ xs.foldl min a ∈ xs := by
  induction xs with
  | nil => intro a; left; rfl
  | cons y ys ih =>
    intro a
    simp only [List.foldl_cons]
    rcases ih (min a y) with h | h
    · rcases min_choice a y with hm | hm
      · left; rw [h, hm]
      · right; rw [h, hm]; exact List.mem_cons_self y ys
    · right; exact List.mem_cons_of_mem y h

/-- The numpy minimum of a nonempty list is one of its elements. -/
theorem listMin_mem (V : List ℚ) (h : V ≠ []) : listMin V ∈ V := by
  cases V with
  | nil => exact absurd rfl h
  | cons y ys =>
    show ys.foldl min y ∈ y :: ys
    rcases foldl_min_eq_or_mem ys y with h1 | h1
    · rw [h1]; exact List.mem_cons_self y ys
    · exact List.mem_cons_of_mem y h1

/-- When the rescaling divisor is zero, every quantized value is undefined. -/
theorem loadVolatileVals_none (V : List ℚ) (pr : ℤ)
    (hz : listMax V - listMin V = 0) :
    ∀ ov ∈ loadVolatileVals V pr, ov = none := by
  intro ov hov
  simp only [loadVolatileVals, List.mem_map] at hov
  obtain ⟨v, hv, rfl⟩ := hov
  simp [pyDiv, hz]

/-- Every event produced by the upload enumeration is an uploadPoint carrying
one of the quantized values. -/
theorem enumFrom1_mem (vs : List (Option ℤ)) :
    ∀ (i : ℕ) (e : ArbEvent), e ∈ enumFrom1 i vs →
      ∃ j v, e = ArbEvent.uploadPoint j v ∧ v ∈ vs := by
  induction vs with
  | nil => intro i e he; cases he
  | cons v vs ih =>
    intro i e he
    rcases List.mem_cons.mp he with rfl | h
    · exact ⟨i, v, rfl, List.mem_cons_self v vs⟩
    · obtain ⟨j, w, he2, hw⟩ := ih (i + 1) e h
      exact ⟨j, w, he2, List.mem_cons_of_mem v hw⟩

/-! ## C10 -/

/-- C10: on a constant nonempty voltage vector, loadVolatile performs the
rescaling division with divisor zero as its first step, before any point
upload, and every uploaded value is then undefined; the rescaling is
well-defined exactly under the precondition min < max, in which case every
quantized value lies in [0, pointRange]. -/
theorem C10_loadVolatile_div_zero :
    (∀ (t V : List ℚ) (pr : ℤ), V ≠ [] → (∀ x ∈ V, ∀ y ∈ V, x = y) →
      ∃ rest, loadVolatileEvents t V pr = ArbEvent.rescaleDiv 0 :: rest ∧
        ∀ e ∈ rest, ∀ i val, e = ArbEvent.uploadPoint i val → val = none) ∧
    (∀ (V : List ℚ) (pr : ℤ), 0 ≤ pr → listMin V < listMax V →
      ∀ ov ∈ loadVolatileVals V pr, ∃ b, ov = some b ∧ 0 ≤ b ∧ b ≤ pr) := by
  constructor
  · intro t V pr hne hc
    have hz : listMax V - listMin V = 0 := by
      rw [hc _ (listMax_mem V hne) _ (listMin_mem V hne), sub_self]
    refine ⟨ArbEvent.setPoints t.length :: enumFrom1 1 (loadVolatileVals V pr), ?_, ?_⟩
    · unfold loadVolatileEvents
      rw [hz]
    · intro e he i val hev
      rcases List.mem_cons.mp he with rfl | he2
      · exact absurd hev (by simp)
      · obtain ⟨j, w, rfl, hw⟩ := enumFrom1_mem _ _ _ he2
        have hwv : w = val := by injection hev
        rw [← hwv]
        exact loadVolatileVals_none V pr hz w hw
  · intro V pr hpr hlt ov hov
    simp only [loadVolatileVals, List.mem_map] at hov
    obtain ⟨v, hv, rfl⟩ := hov
    have hAmpl : (0:ℚ) < listMax V - listMin V := sub_pos.mpr hlt
    have hne : listMax V - listMin V ≠ 0 := ne_of_gt hAmpl
    have hprQ : (0:ℚ) ≤ (pr : ℚ) := by exact_mod_cast hpr
    set r : ℚ := (v - listMin V) / (listMax V - listMin V) with hr
    have hr0 : 0 ≤ r := div_nonneg (sub_nonneg.mpr (listMin_le V v hv)) (le_of_lt hAmpl)
    have hr1 : r ≤ 1 := by
      rw [hr, div_le_one hAmpl]
      exact sub_le_sub_right (le_listMax V v hv) _
    have hx0 : (0:ℚ) ≤ r * (pr : ℚ) := mul_nonneg hr0 hprQ
    have hx1 : r * (pr:ℚ) ≤ (pr:ℚ) := mul_le_of_le_one_left hprQ hr1
    obtain ⟨hlo, hhi⟩ := abs_le.mp (abs_npRound_sub (r * (pr : ℚ)))
    have hb0 : 0 ≤ npRound (r * (pr : ℚ)) := by
      have hq : (-1 : ℚ) < ((npRound (r * (pr:ℚ)) : ℤ) : ℚ) := by linarith
      have hz2 : (-1 : ℤ) < npRound (r * (pr : ℚ)) := by exact_mod_cast hq
      omega
    have hbp : npRound (r * (pr : ℚ)) ≤ pr := by
      have hq : ((npRound (r * (pr:ℚ)) : ℤ) : ℚ) < (pr:ℚ) + 1 := by linarith
      have hz2 : npRound (r * (pr : ℚ)) < pr + 1 := by exact_mod_cast hq
      omega
    refine ⟨npRound (r * (pr : ℚ)), ?_, hb0, hbp⟩
    simp [pyDiv, hne, hr]

/-- Witness for C10: the constant vector [1, 1] and the ramp vector [0, 1]
with the default point range 16383. -/
theorem C10_witness :
    (∃ rest, loadVolatileEvents [0] [1, 1] 16383 = ArbEvent.rescaleDiv 0 :: rest ∧
      ∀ e ∈ rest, ∀ i val, e = ArbEvent.uploadPoint i val → val = none) ∧
    (∀ ov ∈ loadVolatileVals [0, 1] 16383, ∃ b, ov = some b ∧ 0 ≤ b ∧ b ≤ 16383) :=
  ⟨C10_loadVolatile_div_zero.1 [0] [1, 1] 16383 (by simp)
      (by intro x hx y hy; fin_cases hx <;> fin_cases hy <;> rfl),
   C10_loadVolatile_div_zero.2 [0, 1] 16383 (by norm_num)
      (by norm_num [listMin, listMax, List.foldl, min_def, max_def])⟩
